import Mathlib

/-!
Verification of the DataBridge pipeline core (pipelines app): the
configuration validator (`services/config_validator.py`), the transform
engine (`engine/transforms.py`) and the run orchestrator
(`services/pipeline_service.py` together with the API layer in
`api/views.py` and `api/serializers.py`).

The embedding is shallow: JSON-like configuration values become the
inductive type `Val`; pandas DataFrames become the record `Df` (ordered
column names, a pandas-style row index, and positional rows);
Python exceptions become `Except` errors.  Library calls are modelled by
their documented behaviour (notes appear next to each definition).
-/

/-- Scalar or structured JSON-like value as stored in the Django JSONField
configuration and in DataFrame cells.  Floats do not occur in the
configurations or claims under study and are not modelled, except for the
float NaN (`vnan`) that pandas passes to the probe row of `apply` on a
zero-row frame. -/
inductive Val where
  | vnull : Val
  | vbool : Bool → Val
  | vint : Int → Val
  | vstr : String → Val
  | vlist : List Val → Val
  | vdict : List (String × Val) → Val
  | vnan : Val

/-- Python type name of a value, as it appears in exception messages. -/
def pyTypeName : Val → String
  | .vnull => "NoneType"
  | .vbool _ => "bool"
  | .vint _ => "int"
  | .vstr _ => "str"
  | .vlist _ => "list"
  | .vdict _ => "dict"
  | .vnan => "float"

/-- Single-quote character, kept out of string literals. -/
def sqc : Char := Char.ofNat 39

/-- Newline character. -/
def nlChar : Char := Char.ofNat 10

/-- Python `str()` of an integer. -/
def pyIntStr (n : Int) : String := toString n

mutual

/-- Python `repr()` of a value (string escaping inside `repr` of a string is
not modelled; no claim depends on it). -/
def pyRepr : Val → String
  | .vnull => "None"
  | .vbool b => if b then "True" else "False"
  | .vint n => pyIntStr n
  | .vnan => "nan"
  | .vstr s => "\x27" ++ s ++ "\x27"
  | .vlist xs => "[" ++ pyReprList xs ++ "]"
  | .vdict kvs => "\x7b" ++ pyReprKVs kvs ++ "\x7d"

/-- Comma-separated `repr()`s of list elements. -/
def pyReprList : List Val → String
  | [] => ""
  | [x] => pyRepr x
  | x :: y :: xs => pyRepr x ++ ", " ++ pyReprList (y :: xs)

/-- Comma-separated `repr()`s of dict entries. -/
def pyReprKVs : List (String × Val) → String
  | [] => ""
  | [(k, v)] => "\x27" ++ k ++ "\x27: " ++ pyRepr v
  | (k, v) :: e :: kvs => "\x27" ++ k ++ "\x27: " ++ pyRepr v ++ ", " ++ pyReprKVs (e :: kvs)

end

/-- Python `str()` of a value (`str` on containers delegates to `repr`). -/
def pyStr : Val → String
  | .vstr s => s
  | v => pyRepr v

/-- Python truthiness of a value. -/
def pyTruthy : Val → Bool
  | .vnull => false
  | .vbool b => b
  | .vint n => n ≠ 0
  | .vstr s => s ≠ ""
  | .vlist xs => !xs.isEmpty
  | .vdict kvs => !kvs.isEmpty
  | .vnan => true

/-- Lookup in a Python dict modelled as an association list (JSON objects
and Python dicts have distinct keys; lookup takes the first occurrence). -/
def dictLookup (kvs : List (String × Val)) (k : String) : Option Val :=
  match kvs with
  | [] => none
  | (k2, v) :: rest => if k2 = k then some v else dictLookup rest k

/-- Python whitespace characters stripped by `str.strip()`. -/
def isPyWs (c : Char) : Bool :=
  c = ' ' || c = Char.ofNat 9 || c = nlChar || c = Char.ofNat 13 ||
  c = Char.ofNat 11 || c = Char.ofNat 12

/-- Python `str.strip()`. -/
def pyStrip (s : String) : String :=
  String.mk (((s.toList.dropWhile isPyWs).reverse.dropWhile isPyWs).reverse)

/-- Python `\w` word character as matched by the expression regexes (the
ASCII fragment; the configurations under study use ASCII names). -/
def isPyWordChar (c : Char) : Bool :=
  c.isAlphanum || c = '_'

/-- Quoted rendering of a string for error messages, mirroring an f-string
of the shape `f"...'{x}'..."`. -/
def q (s : String) : String := "\x27" ++ s ++ "\x27"

/-- Errors raised by the transform engine: the `TransformError` hierarchy of
`engine/transforms.py` plus unhandled Python exceptions (`pyError`), all of
which `run_pipeline` catches alike. -/
inductive TErr where
  | columnMismatch : String → TErr
  | transformError : String → TErr
  | invalidExpression : String → TErr
  | pyError : String → TErr
deriving DecidableEq

/-- Message carried by an engine error, as `str(exc)` produces it. -/
def errMsg : TErr → String
  | .columnMismatch m => m
  | .transformError m => m
  | .invalidExpression m => m
  | .pyError m => m

/-- DataFrame in the engine: ordered column names, pandas row index, and
positional rows (one list of cells per row, aligned with `cols`). -/
structure Df where
  cols : List String
  idx : List Nat
  rows : List (List Val)

/-- Position of a column label in the column list. -/
def colIndex (cols : List String) (c : String) : Option Nat :=
  match cols with
  | [] => none
  | c2 :: rest => if c2 = c then some 0 else (colIndex rest c).map (· + 1)

/-- Cell of a row under a column label (rows are aligned with `cols`;
the default is unreachable when the label is present). -/
def rowCell (cols : List String) (r : List Val) (c : String) : Val :=
  match colIndex cols c with
  | some i => r.getD i .vnull
  | none => .vnull

/-- Match of the regex `^(\w+)\((.+)\)$` with `re.DOTALL`
(`_EXPR_RE` in both `transforms.py` and `config_validator.py`):
a maximal nonempty run of word characters, a literal opening parenthesis,
at least one arbitrary character, and a closing parenthesis at the end. -/
def parseExprMatch (s : String) : Option (String × String) :=
  let cs := s.toList
  let nameCs := cs.takeWhile isPyWordChar
  let rest := cs.dropWhile isPyWordChar
  if nameCs = [] then none
  else
    match rest with
    | '(' :: rest2 =>
        if rest2.getLast? = some ')' && rest2.length ≥ 2 then
          some (String.mk nameCs, String.mk rest2.dropLast)
        else none
    | _ => none

/-- Match of `_LITERAL_RE`, the regex `^'(.*)'$` without DOTALL: a
single-quoted literal whose body has no newline.  (`$` would also accept a
trailing newline, but every argument reaching this regex has been
stripped.) -/
def literalMatch (arg : String) : Option String :=
  let cs := arg.toList
  if cs.length ≥ 2 && cs.head? = some sqc && cs.getLast? = some sqc &&
      !(cs.dropLast.drop 1).contains nlChar then
    some (String.mk ((cs.dropLast).drop 1))
  else none

/-- State-machine splitting of `_parse_args`: commas separate arguments
except inside single-quoted spans; each produced argument is stripped; a
trailing nonempty span is appended even if blank after stripping. -/
def parseArgsAux : List Char → Bool → List Char → List String → List String
  | [], _, current, args =>
      if current ≠ [] then args ++ [pyStrip (String.mk current)] else args
  | c :: rest, inQuote, current, args =>
      if c = sqc then parseArgsAux rest (!inQuote) (current ++ [c]) args
      else if c = ',' && !inQuote then
        parseArgsAux rest inQuote [] (args ++ [pyStrip (String.mk current)])
      else parseArgsAux rest inQuote (current ++ [c]) args

/-- Split of `_parse_args(raw)`. -/
def parseArgs (raw : String) : List String :=
  parseArgsAux raw.toList false [] []

/-- Resolution of `_resolve_arg`: a quoted literal yields its body as a
string, anything else is looked up as a row label (a missing label raises
`KeyError` from the pandas Series). -/
def resolveArg (cols : List String) (r : List Val) (arg : String) : Except TErr Val :=
  match literalMatch arg with
  | some lit => .ok (.vstr lit)
  | none =>
      match colIndex cols arg with
      | some i => .ok (r.getD i .vnull)
      | none => .error (.pyError ("KeyError: " ++ q arg))

/-- Python `+` of two resolved values (`add` in `EXPRESSION_FUNCTIONS` is
`vals[0] + vals[1]`): integer addition on numbers (a bool counts as 0 or
1), string concatenation on two strings, `TypeError` otherwise. -/
def pyAddVals (a b : Val) : Except TErr Val :=
  match a, b with
  | .vint x, .vint y => .ok (.vint (x + y))
  | .vint x, .vbool y => .ok (.vint (x + (if y then 1 else 0)))
  | .vbool x, .vint y => .ok (.vint ((if x then 1 else 0) + y))
  | .vbool x, .vbool y => .ok (.vint ((if x then 1 else 0) + (if y then 1 else 0)))
  | .vstr x, .vstr y => .ok (.vstr (x ++ y))
  | .vnan, .vnan => .ok .vnan
  | .vnan, .vint _ => .ok .vnan
  | .vnan, .vbool _ => .ok .vnan
  | .vint _, .vnan => .ok .vnan
  | .vbool _, .vnan => .ok .vnan
  | x, y =>
      .error (.pyError ("TypeError: unsupported operand types " ++
        pyTypeName x ++ " and " ++ pyTypeName y))

/-- Dispatch of `EXPRESSION_FUNCTIONS[func_name](resolved)`: `concat` joins
the `str()` of every argument with no separator; `add` is
`vals[0] + vals[1]` (an argument list shorter than two raises
`IndexError`, extra arguments are ignored). -/
def applyExprFunction (fn : String) (resolved : List Val) : Except TErr Val :=
  if fn = "concat" then .ok (.vstr (String.join (resolved.map pyStr)))
  else
    match resolved with
    | a :: b :: _ => pyAddVals a b
    | _ => .error (.pyError "IndexError: list index out of range")

/-- Per-row evaluation `_eval_expression(expr, row)`. -/
def evalExpression (expr : String) (cols : List String) (r : List Val) : Except TErr Val := do
  match parseExprMatch (pyStrip expr) with
  | none => .error (.invalidExpression ("Cannot parse expression: " ++ q expr))
  | some (fn, rawArgs) =>
      if fn ∉ ["concat", "add"] then
        .error (.invalidExpression ("Unsupported function: " ++ q fn))
      else do
        let resolved ← (parseArgs rawArgs).mapM (resolveArg cols r)
        applyExprFunction fn resolved


/-- Generic effectful map over a list in the `Except` monad, evaluating left
to right and stopping at the first error (the order in which Python
comprehensions and pandas masks evaluate). -/
def exMapM (g : α → Except TErr β) : List α → Except TErr (List β)
  | [] => .ok []
  | a :: as => do
      let b ← g a
      let bs ← exMapM g as
      .ok (b :: bs)

/-- Python iteration over a configuration value (`for x in v`): lists yield
elements, strings yield one-character strings, dicts yield their keys, and
other values raise `TypeError`. -/
def iterElems : Val → Except TErr (List Val)
  | .vlist xs => .ok xs
  | .vstr s => .ok (s.toList.map (fun ch => Val.vstr (String.mk [ch])))
  | .vdict kvs => .ok (kvs.map (fun kv => Val.vstr kv.fst))
  | v => .error (.pyError ("TypeError: " ++ pyTypeName v ++ " object is not iterable"))

/-- Python hashing of a value, as performed by `in` on a set or index:
lists and dicts are unhashable and raise `TypeError`. -/
def labelHashable : Val → Except TErr Unit
  | .vlist _ => .error (.pyError "TypeError: unhashable type: list")
  | .vdict _ => .error (.pyError "TypeError: unhashable type: dict")
  | _ => .ok ()

/-- Membership of a value among string column labels: only an equal string
is present. -/
def labelPresent (v : Val) (cols : List String) : Bool :=
  match v with
  | .vstr s => cols.contains s
  | _ => false

/-- Python `v in df.columns` for a string index. -/
def pyLabelIn (v : Val) (cols : List String) : Except TErr Bool := do
  let _ ← labelHashable v
  .ok (labelPresent v cols)

/-- Python `v in s` for a set (or dict keys) of strings. -/
def pyStrInSet (v : Val) (s : List String) : Except TErr Bool := do
  let _ ← labelHashable v
  .ok (match v with | .vstr x => s.contains x | _ => false)

/-- Python subscript `v[k]` with a string key: a dict yields the value or
raises `KeyError`; anything else raises `TypeError`. -/
def pyGetItem (v : Val) (k : String) : Except TErr Val :=
  match v with
  | .vdict kvs =>
      match dictLookup kvs k with
      | some x => .ok x
      | none => .error (.pyError ("KeyError: " ++ q k))
  | _ => .error (.pyError ("TypeError: " ++ pyTypeName v ++ " is not subscriptable by string"))

/-- Insertion of a string into a sorted list (ascending code-point order,
as Python `sorted` on strings). -/
def insertSorted (s : String) : List String → List String
  | [] => [s]
  | t :: ts => if s ≤ t then s :: t :: ts else t :: insertSorted s ts

/-- Insertion sort of strings, modelling Python `sorted`. -/
def sortStrings : List String → List String
  | [] => []
  | s :: ss => insertSorted s (sortStrings ss)

/-- Python `repr` of a list of strings, as f-strings interpolate
`sorted(...)` in engine error messages. -/
def pyReprStrList (xs : List String) : String :=
  "[" ++ String.intercalate ", " (xs.map q) ++ "]"

/-- Rename applied to one column label by `df.rename(columns=mapping)`:
a mapped label takes the mapping value (non-string rename targets are
rendered by their `str()` form; every rename in the repository and claims
uses strings), an unmapped label is unchanged. -/
def renameWith (kvs : List (String × Val)) (c : String) : String :=
  match dictLookup kvs c with
  | some nv => pyStr nv
  | none => c

/-- Transform `apply_column_mapping`: reject mappings whose keys are not
current columns (message lists them sorted and deduplicated, as
`sorted(set(...) - set(...))`), then rename; `.keys()` on a non-dict raises
`AttributeError`.  `df.rename` imposes no injectivity: distinct columns may
be renamed to the same label. -/
def applyColumnMapping (df : Df) (v : Val) : Except TErr Df :=
  match v with
  | .vdict kvs =>
      let missing := (kvs.map Prod.fst).filter (fun k => !df.cols.contains k)
      if !missing.isEmpty then
        .error (.columnMismatch ("column_mapping references columns not in data: " ++
          pyReprStrList (sortStrings missing.dedup)))
      else .ok ⟨df.cols.map (renameWith kvs), df.idx, df.rows⟩
  | _ => .error (.pyError ("AttributeError: " ++ pyTypeName v ++ " object has no attribute keys"))

/-- Names of missing selection entries for the error message: Python
formats `sorted(missing)`; modelled exactly for string labels (the shape
every configuration in the repository has), other label types rendered
unsorted. -/
def missingValsMsg (missing : List Val) : String :=
  if missing.all (fun v => match v with | .vstr _ => true | _ => false) then
    pyReprStrList (sortStrings ((missing.map pyStr).dedup))
  else "[" ++ pyReprList missing ++ "]"

/-- Transform `apply_column_selection`: `set(columns)` hashes every entry
(`TypeError` on unhashable ones), entries absent from the columns are
rejected, and on success the dataset keeps exactly the listed columns in
the listed order.  A non-list argument is not reachable through a
validated configuration and is modelled as an error. -/
def applyColumnSelection (df : Df) (v : Val) : Except TErr Df :=
  match v with
  | .vlist elems => do
      let _ ← exMapM labelHashable elems
      let missing := elems.filter (fun e => !labelPresent e df.cols)
      if !missing.isEmpty then
        .error (.columnMismatch ("column_selection references missing columns: " ++
          missingValsMsg missing))
      else
        .ok ⟨elems.map pyStr, df.idx,
          df.rows.map (fun r => elems.map (fun e => rowCell df.cols r (pyStr e)))⟩
  | _ => .error (.pyError ("TypeError: unmodelled selection argument of type " ++ pyTypeName v))

/-- Numeric view of a cell for comparisons (Python bools are integers). -/
def pyNumOf : Val → Option Int
  | .vint n => some n
  | .vbool b => some (if b then 1 else 0)
  | _ => none

/-- Elementwise `==` of the `eq` filter: numbers by value, strings by text;
null cells never compare equal (missing data behaves as NaN in pandas
columns) and mismatched types are unequal rather than an error. -/
def cellEq (a b : Val) : Bool :=
  match pyNumOf a, pyNumOf b with
  | some x, some y => x = y
  | _, _ =>
      match a, b with
      | .vstr x, .vstr y => x = y
      | _, _ => false

/-- Elementwise `>` of the `gt` filter: numbers or strings compare, any
other combination raises `TypeError` as an object-dtype comparison does. -/
def cellGt (a b : Val) : Except TErr Bool :=
  match pyNumOf a, pyNumOf b with
  | some x, some y => .ok (decide (y < x))
  | _, _ =>
      match a, b with
      | .vstr x, .vstr y => .ok (decide (y < x))
      | .vnan, .vnan => .ok false
      | .vnan, .vint _ => .ok false
      | .vnan, .vbool _ => .ok false
      | .vint _, .vnan => .ok false
      | .vbool _, .vnan => .ok false
      | _, _ => .error (.pyError ("TypeError: unsupported comparison between " ++
          pyTypeName a ++ " and " ++ pyTypeName b))

/-- Elementwise `<` of the `lt` filter. -/
def cellLt (a b : Val) : Except TErr Bool :=
  match pyNumOf a, pyNumOf b with
  | some x, some y => .ok (decide (x < y))
  | _, _ =>
      match a, b with
      | .vstr x, .vstr y => .ok (decide (x < y))
      | .vnan, .vnan => .ok false
      | .vnan, .vint _ => .ok false
      | .vnan, .vbool _ => .ok false
      | .vint _, .vnan => .ok false
      | .vbool _, .vnan => .ok false
      | _, _ => .error (.pyError ("TypeError: unsupported comparison between " ++
          pyTypeName a ++ " and " ++ pyTypeName b))

/-- Whether one character list starts with another. -/
def startsWithChars : List Char → List Char → Bool
  | [], _ => true
  | _ :: _, [] => false
  | p :: ps, c :: cs => p = c && startsWithChars ps cs

/-- Whether a pattern occurs as a contiguous subsequence. -/
def containsChars (pat : List Char) : List Char → Bool
  | [] => startsWithChars pat []
  | c :: cs => startsWithChars pat (c :: cs) || containsChars pat cs

/-- Elementwise `contains` filter: the source stringifies the cell with
`astype(str)` and runs `str.contains(str(v), na=False)`, a regex search;
modelled as literal substring search, which agrees with the source
whenever `str(v)` has no regex metacharacters (true of every
configuration in the repository, its tests and the claims). -/
def cellContains (cell v : Val) : Bool :=
  containsChars (pyStr v).toList (pyStr cell).toList

/-- Mask semantics `FILTER_OPERATORS[op](cell, value)` for a supported
operator (called only after the membership check; the final branch is
`contains`). -/
def cellTest (op : String) (cell v : Val) : Except TErr Bool :=
  if op = "eq" then .ok (cellEq cell v)
  else if op = "gt" then cellGt cell v
  else if op = "lt" then cellLt cell v
  else .ok (cellContains cell v)

/-- Rows kept by a boolean mask, as `df.loc[mask]`. -/
def filterByMask : List (List Val) → List Bool → List (List Val)
  | r :: rs, b :: bs => if b then r :: filterByMask rs bs else filterByMask rs bs
  | _, _ => []

/-- One iteration of the `apply_filters` loop: read `column`, `operator`
and `value` (KeyError or TypeError exactly as subscripting would raise),
reject a missing column with `ColumnMismatchError` and an unsupported
operator with `TransformError`, compute the whole-column mask, keep the
masked rows and `reset_index(drop=True)`. -/
def applyOneFilter (df : Df) (f : Val) : Except TErr Df := do
  let colV ← pyGetItem f "column"
  let opV ← pyGetItem f "operator"
  let valV ← pyGetItem f "value"
  let present ← pyLabelIn colV df.cols
  if !present then
    .error (.columnMismatch ("Filter references missing column: " ++ q (pyStr colV)))
  else do
    let opOk ← pyStrInSet opV ["eq", "gt", "lt", "contains"]
    if !opOk then
      .error (.transformError ("Unsupported filter operator: " ++ q (pyStr opV)))
    else do
      let mask ← exMapM (fun r => cellTest (pyStr opV) (rowCell df.cols r (pyStr colV)) valV) df.rows
      let kept := filterByMask df.rows mask
      .ok ⟨df.cols, List.range kept.length, kept⟩

/-- Sequential narrowing of `apply_filters` over a list of filter entries. -/
def applyFiltersList (df : Df) : List Val → Except TErr Df
  | [] => .ok df
  | f :: fs => do
      let df2 ← applyOneFilter df f
      applyFiltersList df2 fs

/-- Transform `apply_filters` on the raw configuration value. -/
def applyFilters (df : Df) (v : Val) : Except TErr Df := do
  let xs ← iterElems v
  applyFiltersList df xs

/-- Validation loop of `apply_computed_fields`: the first argument that is
neither a quoted literal nor a current column raises `ColumnMismatchError`
naming it. -/
def checkArgsPresent (fname : String) (cols : List String) : List String → Except TErr Unit
  | [] => .ok ()
  | a :: rest =>
      if (literalMatch a).isNone && !cols.contains a then
        .error (.columnMismatch ("Computed field " ++ q fname ++
          " references missing column: " ++ q a))
      else checkArgsPresent fname cols rest

/-- Column assignment `df[name] = series`: an existing label is replaced in
place, a new label is appended as the last column. -/
def setColumn (df : Df) (c : String) (vals : List Val) : Df :=
  match colIndex df.cols c with
  | some i => ⟨df.cols, df.idx, (df.rows.zip vals).map (fun rv => rv.1.set i rv.2)⟩
  | none => ⟨df.cols ++ [c], df.idx, (df.rows.zip vals).map (fun rv => rv.1 ++ [rv.2])⟩

/-- Assignment `df[name] = df.apply(lambda row: _eval_expression(expression, row), axis=1)`.
On a frame with rows, `apply` evaluates the expression on each row and the
resulting series is assigned.  On a zero-row frame, pandas routes through
`apply_empty_result`, which probe-calls the evaluator once on a NaN-filled
row over the columns and swallows any exception: a scalar-returning probe
makes `apply` return an empty series, whose assignment adds or replaces
the (empty) column; a raising probe makes `apply` return a copy of the
frame, and assigning that `DataFrame` to the single column `name`
succeeds only when the frame has exactly one column — otherwise
`_set_item_frame_value` raises `ValueError` ("Columns must be same length
as key" when `name` is an existing column, the single-column message
otherwise). -/
def applyExprColumn (df : Df) (name : String) (exprS : String) : Except TErr Df :=
  match df.rows with
  | [] =>
      match evalExpression exprS df.cols (df.cols.map (fun _ => Val.vnan)) with
      | .ok _ => .ok (setColumn df name [])
      | .error _ =>
          if df.cols.length = 1 then .ok (setColumn df name [])
          else if df.cols.contains name then
            .error (.pyError "ValueError: Columns must be same length as key")
          else
            .error (.pyError ("ValueError: Cannot set a DataFrame with multiple columns to the single column " ++ name))
  | _ :: _ => do
      let vals ← exMapM (fun r => evalExpression exprS df.cols r) df.rows
      .ok (setColumn df name vals)

/-- One iteration of the `apply_computed_fields` loop: read `name` and
`expression`, strip the expression (`AttributeError` when it is not a
string), pre-validate column references only when the expression matches
the grammar, then evaluate and assign the new column through
`applyExprColumn`. -/
def applyComputedFieldItem (df : Df) (field : Val) : Except TErr Df := do
  let nameV ← pyGetItem field "name"
  let exprV ← pyGetItem field "expression"
  let exprS ← match exprV with
    | .vstr s => pure s
    | v => .error (.pyError ("AttributeError: " ++ pyTypeName v ++ " object has no attribute strip"))
  let _ ← (match parseExprMatch (pyStrip exprS) with
    | some pr => checkArgsPresent (pyStr nameV) df.cols (parseArgs pr.2)
    | none => .ok ())
  applyExprColumn df (pyStr nameV) exprS

/-- Sequential loop of `apply_computed_fields`; each added column is
visible to the validation of later fields. -/
def applyComputedFieldsList (df : Df) : List Val → Except TErr Df
  | [] => .ok df
  | f :: fs => do
      let df2 ← applyComputedFieldItem df f
      applyComputedFieldsList df2 fs

/-- Transform `apply_computed_fields` on the raw configuration value. -/
def applyComputedFields (df : Df) (v : Val) : Except TErr Df := do
  let xs ← iterElems v
  applyComputedFieldsList df xs

/-- Transform `apply_drop_columns`: `present` keeps the listed labels that
are current columns (hashing each entry), absent labels are silently
ignored, and the present ones are dropped. -/
def applyDropColumns (df : Df) (v : Val) : Except TErr Df := do
  let elems ← iterElems v
  let _ ← exMapM labelHashable elems
  let keepCol := fun c => !(elems.any (fun e => labelPresent e df.cols && pyStr e == c))
  .ok ⟨df.cols.filter keepCol, df.idx,
    df.rows.map (fun r => ((df.cols.zip r).filter (fun p => keepCol p.1)).map Prod.snd)⟩

/-- Orchestration `run_transforms`: each recognized key, when present in
the configuration dict, triggers its step; the steps run in the source
order column_mapping, column_selection, filters, computed_fields,
drop_columns. -/
def runTransforms (df : Df) (config : List (String × Val)) : Except TErr Df := do
  let d1 ← match dictLookup config "column_mapping" with
    | some v => applyColumnMapping df v
    | none => pure df
  let d2 ← match dictLookup config "column_selection" with
    | some v => applyColumnSelection d1 v
    | none => pure d1
  let d3 ← match dictLookup config "filters" with
    | some v => applyFilters d2 v
    | none => pure d2
  let d4 ← match dictLookup config "computed_fields" with
    | some v => applyComputedFields d3 v
    | none => pure d3
  match dictLookup config "drop_columns" with
    | some v => applyDropColumns d4 v
    | none => pure d4

/-- Fixed-order pipeline stated from the specification words: given the
five optional step configurations (and nothing else), apply
column_mapping, then column_selection, then filters, then computed_fields,
then drop_columns.  Kept separate from `runTransforms` so that the engine
can be compared against it. -/
def fixedOrderPipelineSpec (df : Df) (m s f c d : Option Val) : Except TErr Df := do
  let d1 ← match m with
    | some v => applyColumnMapping df v
    | none => pure df
  let d2 ← match s with
    | some v => applyColumnSelection d1 v
    | none => pure d1
  let d3 ← match f with
    | some v => applyFilters d2 v
    | none => pure d2
  let d4 ← match c with
    | some v => applyComputedFields d3 v
    | none => pure d3
  match d with
    | some v => applyDropColumns d4 v
    | none => pure d4


/-- Row-level reading of one filter entry: the row passes when the entry
yields `column`, `operator` and `value` and the mask comparison of this
row's cell evaluates to true. -/
def rowPassOk (cols : List String) (f : Val) (r : List Val) : Bool :=
  match pyGetItem f "column", pyGetItem f "operator", pyGetItem f "value" with
  | .ok colV, .ok opV, .ok valV =>
      match cellTest (pyStr opV) (rowCell cols r (pyStr colV)) valV with
      | .ok b => b
      | .error _ => false
  | _, _, _ => false

/-- A successfully computed mask selects exactly the rows whose test
evaluates to true. -/
theorem filterByMask_eq (g : List Val → Except TErr Bool) :
    ∀ (rows : List (List Val)) (mask : List Bool),
    exMapM g rows = .ok mask →
    filterByMask rows mask =
      rows.filter (fun r => match g r with | .ok b => b | .error _ => false) := by
  intro rows
  induction rows with
  | nil =>
      intro mask h
      simp [exMapM] at h
      subst h
      simp [filterByMask]
  | cons r rs ih =>
      intro mask h
      simp only [exMapM] at h
      cases hgr : g r with
      | error e =>
          rw [hgr] at h
          simp only [Bind.bind, Except.bind] at h
          exact Except.noConfusion h
      | ok b =>
          rw [hgr] at h
          simp only [Bind.bind, Except.bind] at h
          cases hrest : exMapM g rs with
          | error e =>
              rw [hrest] at h
              simp at h
          | ok bs =>
              rw [hrest] at h
              simp only [Except.ok.injEq] at h
              subst h
              cases b with
              | true => simp [filterByMask, List.filter_cons, hgr, ih bs hrest]
              | false => simp [filterByMask, List.filter_cons, hgr, ih bs hrest]

/-- One filter pass keeps the columns, keeps exactly the rows whose test is
true (in order), and renumbers the index from zero. -/
theorem applyOneFilter_ok (df : Df) (f : Val) (d' : Df)
    (h : applyOneFilter df f = .ok d') :
    d'.cols = df.cols ∧ d'.rows = df.rows.filter (rowPassOk df.cols f) ∧
    d'.idx = List.range d'.rows.length := by
  unfold applyOneFilter at h
  cases hc : pyGetItem f "column" with
  | error e =>
      rw [hc] at h
      simp only [Bind.bind, Except.bind] at h
      exact Except.noConfusion h
  | ok colV =>
  rw [hc] at h
  simp only [Bind.bind, Except.bind] at h
  cases ho : pyGetItem f "operator" with
  | error e =>
      rw [ho] at h
      exact Except.noConfusion h
  | ok opV =>
  rw [ho] at h
  cases hv : pyGetItem f "value" with
  | error e =>
      rw [hv] at h
      exact Except.noConfusion h
  | ok valV =>
  rw [hv] at h
  cases hp : pyLabelIn colV df.cols with
  | error e =>
      rw [hp] at h
      exact Except.noConfusion h
  | ok present =>
  rw [hp] at h
  cases present with
  | false => simp at h
  | true =>
  simp only [Bool.not_true, Bool.false_eq_true, if_false] at h
  cases hs : pyStrInSet opV ["eq", "gt", "lt", "contains"] with
  | error e =>
      rw [hs] at h
      exact Except.noConfusion h
  | ok opOk =>
  rw [hs] at h
  cases opOk with
  | false => simp at h
  | true =>
  simp only [Bool.not_true, Bool.false_eq_true, if_false] at h
  cases hm : exMapM (fun r => cellTest (pyStr opV) (rowCell df.cols r (pyStr colV)) valV) df.rows with
  | error e =>
      rw [hm] at h
      exact Except.noConfusion h
  | ok mask =>
  rw [hm] at h
  simp only [Except.ok.injEq] at h
  subst h
  have hpred : df.rows.filter
      (fun r => match cellTest (pyStr opV) (rowCell df.cols r (pyStr colV)) valV with
        | .ok b => b
        | .error _ => false) = df.rows.filter (rowPassOk df.cols f) := by
    apply List.filter_congr
    intro r _
    simp [rowPassOk, hc, ho, hv]
  refine ⟨rfl, ?_, ?_⟩
  · rw [filterByMask_eq _ df.rows mask hm, hpred]
  · rw [filterByMask_eq _ df.rows mask hm, hpred]

/-- Sequential filtering computes the conjunction: the surviving rows are
exactly the original rows passing every filter, in their original order;
the index is either untouched (no filters) or renumbered from zero. -/
theorem applyFiltersList_spec :
    ∀ (fs : List Val) (df d' : Df), applyFiltersList df fs = .ok d' →
    d'.cols = df.cols ∧
    d'.rows = df.rows.filter (fun r => fs.all (fun f => rowPassOk df.cols f r)) ∧
    (d' = df ∨ d'.idx = List.range d'.rows.length) := by
  intro fs
  induction fs with
  | nil =>
      intro df d' h
      simp only [applyFiltersList] at h
      cases h
      refine ⟨rfl, ?_, Or.inl rfl⟩
      simp
  | cons f fs ih =>
      intro df d' h
      simp only [applyFiltersList] at h
      cases h1 : applyOneFilter df f with
      | error e =>
          rw [h1] at h
          simp only [Bind.bind, Except.bind] at h
          exact Except.noConfusion h
      | ok d1 =>
          rw [h1] at h
          simp only [Bind.bind, Except.bind] at h
          obtain ⟨hcols1, hrows1, _⟩ := applyOneFilter_ok df f d1 h1
          obtain ⟨hcols2, hrows2, hidx2⟩ := ih d1 d' h
          refine ⟨hcols2.trans hcols1, ?_, ?_⟩
          · rw [hrows2, hcols1, hrows1, List.filter_filter]
            apply List.filter_congr
            intro r _
            rw [List.all_cons, Bool.and_comm]
          · cases hidx2 with
            | inl hda =>
                subst hda
                obtain ⟨_, _, hi1⟩ := applyOneFilter_ok df f d' h1
                exact Or.inr hi1
            | inr hi => exact Or.inr hi

/-- Claim C7: for every dataset (with the contiguous zero-based row index
every dataset in the program has) and every list of filter entries, a
successful `apply_filters` keeps the original columns, keeps exactly the
rows satisfying the conjunction of all filters in their original relative
order, and renumbers the row index contiguously from zero. -/
theorem apply_filters_conjunction_order_reindex (df : Df) (fs : List Val) (d' : Df)
    (hidx : df.idx = List.range df.rows.length)
    (h : applyFilters df (.vlist fs) = .ok d') :
    d'.cols = df.cols ∧
    d'.rows = df.rows.filter (fun r => fs.all (fun f => rowPassOk df.cols f r)) ∧
    d'.idx = List.range d'.rows.length := by
  have hlist : applyFiltersList df fs = .ok d' := by
    simpa only [applyFilters, iterElems, Bind.bind, Except.bind] using h
  obtain ⟨hc, hr, hi⟩ := applyFiltersList_spec fs df d' hlist
  refine ⟨hc, hr, ?_⟩
  cases hi with
  | inl hdf => rw [hdf] at hr ⊢; rw [hidx, hr]
  | inr hi => exact hi

/-- Witness for C7 at the specification example: a numeric column
`value = [50, 200, 300]` filtered with `gt 100` keeps exactly the rows
with 200 and 300 in order, reindexed from zero. -/
theorem apply_filters_conjunction_order_reindex_witness :
    (Df.mk ["value"] [0, 1, 2] [[.vint 50], [.vint 200], [.vint 300]]).idx =
      List.range (Df.mk ["value"] [0, 1, 2] [[.vint 50], [.vint 200], [.vint 300]]).rows.length ∧
    applyFilters (Df.mk ["value"] [0, 1, 2] [[.vint 50], [.vint 200], [.vint 300]])
      (.vlist [.vdict [("column", .vstr "value"), ("operator", .vstr "gt"), ("value", .vint 100)]]) =
      .ok (Df.mk ["value"] [0, 1] [[.vint 200], [.vint 300]]) ∧
    (Df.mk ["value"] [0, 1] [[.vint 200], [.vint 300]]).cols =
      (Df.mk ["value"] [0, 1, 2] [[.vint 50], [.vint 200], [.vint 300]]).cols ∧
    (Df.mk ["value"] [0, 1] [[.vint 200], [.vint 300]]).rows =
      (Df.mk ["value"] [0, 1, 2] [[.vint 50], [.vint 200], [.vint 300]]).rows.filter
        (fun r => [Val.vdict [("column", .vstr "value"), ("operator", .vstr "gt"), ("value", .vint 100)]].all
          (fun f => rowPassOk ["value"] f r)) ∧
    (Df.mk ["value"] [0, 1] [[.vint 200], [.vint 300]]).idx =
      List.range (Df.mk ["value"] [0, 1] [[.vint 200], [.vint 300]]).rows.length := by
  refine ⟨by rfl, by rfl, ?_⟩
  exact apply_filters_conjunction_order_reindex _ _ _ (by rfl) (by rfl)

/-- Absence of a label is exactly failure of the positional lookup. -/
theorem colIndex_none_iff (cols : List String) (c : String) :
    colIndex cols c = none ↔ c ∉ cols := by
  induction cols with
  | nil => simp [colIndex]
  | cons c2 rest ih =>
      by_cases hc : c2 = c
      · subst hc
        simp [colIndex]
      · simp [colIndex, hc, ih, Option.map_eq_none]
        intro h
        exact fun hx => hc hx.symm

/-- Column assignment preserves uniqueness of column names: an existing
label is overwritten in place, a new label is appended. -/
theorem setColumn_cols_nodup (df : Df) (c : String) (vals : List Val)
    (h : df.cols.Nodup) : (setColumn df c vals).cols.Nodup := by
  cases hci : colIndex df.cols c with
  | some i =>
      simp only [setColumn, hci]
      exact h
  | none =>
      have hc : c ∉ df.cols := (colIndex_none_iff df.cols c).mp hci
      simp only [setColumn, hci]
      simp [List.nodup_append, h, hc]

/-- Renaming produces exactly the mapped column list on success. -/
theorem applyColumnMapping_ok_cols (df : Df) (kvs : List (String × Val)) (d : Df)
    (h : applyColumnMapping df (.vdict kvs) = .ok d) :
    d.cols = df.cols.map (renameWith kvs) := by
  simp only [applyColumnMapping] at h
  split at h
  · exact Except.noConfusion h
  · cases h
    rfl

/-- Selection produces exactly the listed labels on success. -/
theorem applyColumnSelection_ok_cols (df : Df) (selElems : List Val) (d : Df)
    (h : applyColumnSelection df (.vlist selElems) = .ok d) :
    d.cols = selElems.map pyStr := by
  simp only [applyColumnSelection] at h
  cases hh : exMapM labelHashable selElems with
  | error e =>
      rw [hh] at h
      simp only [Bind.bind, Except.bind] at h
      exact Except.noConfusion h
  | ok u =>
      rw [hh] at h
      simp only [Bind.bind, Except.bind] at h
      split at h
      · exact Except.noConfusion h
      · cases h
        rfl

/-- Every success of the assignment step is a column assignment over the
incoming dataset. -/
theorem applyExprColumn_ok_shape (df : Df) (name exprS : String) (d : Df)
    (h : applyExprColumn df name exprS = .ok d) :
    ∃ vals, d = setColumn df name vals := by
  obtain ⟨cols, idx, rows⟩ := df
  cases rows with
  | nil =>
      simp only [applyExprColumn] at h
      split at h
      · simp only [Except.ok.injEq] at h
        exact ⟨[], h.symm⟩
      · split at h
        · simp only [Except.ok.injEq] at h
          exact ⟨[], h.symm⟩
        · split at h
          · exact Except.noConfusion h
          · exact Except.noConfusion h
  | cons r rs =>
      simp only [applyExprColumn, Bind.bind, Except.bind] at h
      split at h
      · exact Except.noConfusion h
      · simp only [Except.ok.injEq] at h
        exact ⟨_, h.symm⟩

/-- A successful computed-field iteration is a column assignment over the
incoming dataset. -/
theorem applyComputedFieldItem_ok_shape (df : Df) (field : Val) (d : Df)
    (h : applyComputedFieldItem df field = .ok d) :
    ∃ c vals, d = setColumn df c vals := by
  unfold applyComputedFieldItem at h
  cases hn : pyGetItem field "name" with
  | error e =>
      rw [hn] at h
      simp only [Bind.bind, Except.bind] at h
      exact Except.noConfusion h
  | ok nameV =>
  rw [hn] at h
  simp only [Bind.bind, Except.bind] at h
  cases he : pyGetItem field "expression" with
  | error e =>
      rw [he] at h
      exact Except.noConfusion h
  | ok exprV =>
  rw [he] at h
  cases exprV with
  | vstr s =>
      simp only [pure, Except.pure] at h
      cases hchk : (match parseExprMatch (pyStrip s) with
        | some pr => checkArgsPresent (pyStr nameV) df.cols (parseArgs pr.2)
        | none => Except.ok ()) with
      | error e =>
          rw [hchk] at h
          exact Except.noConfusion h
      | ok u =>
          rw [hchk] at h
          obtain ⟨vals, hv⟩ := applyExprColumn_ok_shape df (pyStr nameV) s d h
          exact ⟨pyStr nameV, vals, hv⟩
  | vnull => exact Except.noConfusion h
  | vbool b => exact Except.noConfusion h
  | vint n => exact Except.noConfusion h
  | vlist xs => exact Except.noConfusion h
  | vdict kvs => exact Except.noConfusion h
  | vnan => exact Except.noConfusion h

/-- The computed-fields loop preserves uniqueness of column names. -/
theorem applyComputedFieldsList_nodup :
    ∀ (fields : List Val) (df d : Df), df.cols.Nodup →
    applyComputedFieldsList df fields = .ok d → d.cols.Nodup := by
  intro fields
  induction fields with
  | nil =>
      intro df d hnd h
      simp only [applyComputedFieldsList] at h
      cases h
      exact hnd
  | cons f fs ih =>
      intro df d hnd h
      simp only [applyComputedFieldsList] at h
      cases h1 : applyComputedFieldItem df f with
      | error e =>
          rw [h1] at h
          simp only [Bind.bind, Except.bind] at h
          exact Except.noConfusion h
      | ok d1 =>
          rw [h1] at h
          simp only [Bind.bind, Except.bind] at h
          obtain ⟨c, vals, hd1⟩ := applyComputedFieldItem_ok_shape df f d1 h1
          exact ih d1 d (hd1 ▸ setColumn_cols_nodup df c vals hnd) h

/-- Dropping produces a sublist of the columns on success. -/
theorem applyDropColumns_ok_cols (df : Df) (v : Val) (d : Df)
    (h : applyDropColumns df v = .ok d) :
    ∃ p, d.cols = df.cols.filter p := by
  simp only [applyDropColumns] at h
  cases hi : iterElems v with
  | error e =>
      rw [hi] at h
      simp only [Bind.bind, Except.bind] at h
      exact Except.noConfusion h
  | ok elems =>
      rw [hi] at h
      simp only [Bind.bind, Except.bind] at h
      cases hh : exMapM labelHashable elems with
      | error e =>
          rw [hh] at h
          exact Except.noConfusion h
      | ok u =>
          rw [hh] at h
          simp only [Except.ok.injEq] at h
          exact ⟨_, by rw [← h]⟩

/-- Counterexample to claim C3 as stated: the dataset with unique columns
`a, b` renamed by the mapping `a → c, b → c` succeeds and yields the
duplicated column list `c, c`. -/
theorem column_mapping_duplicate_columns_counterexample :
    applyColumnMapping (Df.mk ["a", "b"] [0] [[.vint 1, .vint 2]])
      (.vdict [("a", .vstr "c"), ("b", .vstr "c")]) =
      .ok (Df.mk ["c", "c"] [0] [[.vint 1, .vint 2]]) ∧
    (["a", "b"] : List String).Nodup ∧ ¬ (["c", "c"] : List String).Nodup :=
  ⟨by rfl, by decide, by decide⟩

/-- Claim C3 as amended: every transform step preserves uniqueness of the
column names provided its own inputs are collision-free — the rename map
must act injectively on the current columns and the selection list must
name pairwise distinct columns; filters, computed fields and drop-columns
preserve uniqueness unconditionally. -/
theorem transform_steps_preserve_unique_columns
    (df : Df) (kvs : List (String × Val)) (selElems : List Val)
    (fv cfv dv : Val) (d1 d2 d3 d4 d5 : Df)
    (hnd : df.cols.Nodup)
    (hinj : ∀ c1 ∈ df.cols, ∀ c2 ∈ df.cols, renameWith kvs c1 = renameWith kvs c2 → c1 = c2)
    (hsel : (selElems.map pyStr).Nodup) :
    (applyColumnMapping df (.vdict kvs) = .ok d1 → d1.cols.Nodup) ∧
    (applyColumnSelection df (.vlist selElems) = .ok d2 → d2.cols.Nodup) ∧
    (applyFilters df fv = .ok d3 → d3.cols.Nodup) ∧
    (applyComputedFields df cfv = .ok d4 → d4.cols.Nodup) ∧
    (applyDropColumns df dv = .ok d5 → d5.cols.Nodup) := by
  refine ⟨?_, ?_, ?_, ?_, ?_⟩
  · intro h
    rw [applyColumnMapping_ok_cols df kvs d1 h]
    exact hnd.map_on hinj
  · intro h
    rw [applyColumnSelection_ok_cols df selElems d2 h]
    exact hsel
  · intro h
    simp only [applyFilters] at h
    cases hi : iterElems fv with
    | error e =>
        rw [hi] at h
        simp only [Bind.bind, Except.bind] at h
        exact Except.noConfusion h
    | ok xs =>
        rw [hi] at h
        simp only [Bind.bind, Except.bind] at h
        rw [(applyFiltersList_spec xs df d3 h).1]
        exact hnd
  · intro h
    simp only [applyComputedFields] at h
    cases hi : iterElems cfv with
    | error e =>
        rw [hi] at h
        simp only [Bind.bind, Except.bind] at h
        exact Except.noConfusion h
    | ok xs =>
        rw [hi] at h
        simp only [Bind.bind, Except.bind] at h
        exact applyComputedFieldsList_nodup xs df d4 hnd h
  · intro h
    obtain ⟨p, hp⟩ := applyDropColumns_ok_cols df dv d5 h
    rw [hp]
    exact hnd.filter p

/-- Witness for the amended C3 at concrete inputs: an injective rename, a
duplicate-free selection, an empty filter list, one computed field and one
dropped column over the two-column dataset. -/
theorem transform_steps_preserve_unique_columns_witness :
    ((Df.mk ["a", "b"] [0] [[.vint 1, .vint 2]]).cols.Nodup ∧
      ([(("a" : String), Val.vstr "x")].map Prod.fst).Nodup ∧
      ([Val.vstr "b"].map pyStr).Nodup) ∧
    ((applyColumnMapping (Df.mk ["a", "b"] [0] [[.vint 1, .vint 2]]) (.vdict [("a", .vstr "x")]) =
        .ok (Df.mk ["x", "b"] [0] [[.vint 1, .vint 2]]) →
      (Df.mk ["x", "b"] [0] [[.vint 1, .vint 2]]).cols.Nodup) ∧
    (applyColumnSelection (Df.mk ["a", "b"] [0] [[.vint 1, .vint 2]]) (.vlist [.vstr "b"]) =
        .ok (Df.mk ["b"] [0] [[.vint 2]]) →
      (Df.mk ["b"] [0] [[.vint 2]]).cols.Nodup) ∧
    (applyFilters (Df.mk ["a", "b"] [0] [[.vint 1, .vint 2]]) (.vlist []) =
        .ok (Df.mk ["a", "b"] [0] [[.vint 1, .vint 2]]) →
      (Df.mk ["a", "b"] [0] [[.vint 1, .vint 2]]).cols.Nodup) ∧
    (applyComputedFields (Df.mk ["a", "b"] [0] [[.vint 1, .vint 2]])
        (.vlist [.vdict [("name", .vstr "s"), ("expression", .vstr "concat(a, b)")]]) =
        .ok (Df.mk ["a", "b", "s"] [0] [[.vint 1, .vint 2, .vstr "12"]]) →
      (Df.mk ["a", "b", "s"] [0] [[.vint 1, .vint 2, .vstr "12"]]).cols.Nodup) ∧
    (applyDropColumns (Df.mk ["a", "b"] [0] [[.vint 1, .vint 2]]) (.vlist [.vstr "a"]) =
        .ok (Df.mk ["b"] [0] [[.vint 2]]) →
      (Df.mk ["b"] [0] [[.vint 2]]).cols.Nodup)) :=
  ⟨⟨by decide, by decide, by decide⟩,
    transform_steps_preserve_unique_columns
      (Df.mk ["a", "b"] [0] [[.vint 1, .vint 2]]) [("a", .vstr "x")] [.vstr "b"]
      (.vlist []) (.vlist [.vdict [("name", .vstr "s"), ("expression", .vstr "concat(a, b)")]])
      (.vlist [.vstr "a"])
      (Df.mk ["x", "b"] [0] [[.vint 1, .vint 2]]) (Df.mk ["b"] [0] [[.vint 2]])
      (Df.mk ["a", "b"] [0] [[.vint 1, .vint 2]])
      (Df.mk ["a", "b", "s"] [0] [[.vint 1, .vint 2, .vstr "12"]]) (Df.mk ["b"] [0] [[.vint 2]])
      (by decide) (by decide) (by decide)⟩

/-- Lookup in an association list with pairwise distinct keys is invariant
under permutation of the entries. -/
theorem dictLookup_perm {l1 l2 : List (String × Val)} (h : l1.Perm l2) :
    (l1.map Prod.fst).Nodup → ∀ k, dictLookup l1 k = dictLookup l2 k := by
  induction h with
  | nil =>
      intro _ k
      rfl
  | cons x l ih =>
      intro hnd k
      obtain ⟨k1, v1⟩ := x
      simp only [dictLookup]
      simp only [List.map_cons, List.nodup_cons] at hnd
      rw [ih hnd.2 k]
  | swap x y l =>
      intro hnd k
      obtain ⟨k1, v1⟩ := x
      obtain ⟨k2, v2⟩ := y
      simp only [List.map_cons, List.nodup_cons, List.mem_cons] at hnd
      have hne : k2 ≠ k1 := fun hk => hnd.1 (Or.inl hk)
      simp only [dictLookup]
      by_cases h1 : k1 = k
      · by_cases h2 : k2 = k
        · exact absurd (h2.trans h1.symm) hne
        · simp [h1, h2]
      · simp [h1]
  | trans h1 h2 ih1 ih2 =>
      intro hnd k
      rw [ih1 hnd k]
      exact ih2 (((h1.map Prod.fst).nodup) hnd) k

/-- Claim C6: the transform engine runs the five steps in the fixed order
column_mapping, column_selection, filters, computed_fields, drop_columns,
and its result depends only on the key-to-value assignment of the
configuration object, not on the order in which the keys appear. -/
theorem run_transforms_fixed_order_key_order_independent
    (df : Df) (c1 c2 : List (String × Val))
    (hperm : c1.Perm c2) (hnd : (c1.map Prod.fst).Nodup) :
    runTransforms df c1 = runTransforms df c2 ∧
    runTransforms df c1 = fixedOrderPipelineSpec df
      (dictLookup c1 "column_mapping") (dictLookup c1 "column_selection")
      (dictLookup c1 "filters") (dictLookup c1 "computed_fields")
      (dictLookup c1 "drop_columns") := by
  have hk : ∀ k, dictLookup c1 k = dictLookup c2 k := dictLookup_perm hperm hnd
  constructor
  · simp only [runTransforms, hk]
  · rfl

/-- Witness for C6: the same two-key configuration written in both orders
drives the same run, and the run equals the fixed-order pipeline. -/
theorem run_transforms_fixed_order_key_order_independent_witness :
    (runTransforms (Df.mk ["a", "b"] [0] [[.vint 1, .vint 2]])
        [("drop_columns", .vlist [.vstr "a"]), ("column_mapping", .vdict [("b", .vstr "c")])] =
      runTransforms (Df.mk ["a", "b"] [0] [[.vint 1, .vint 2]])
        [("column_mapping", .vdict [("b", .vstr "c")]), ("drop_columns", .vlist [.vstr "a"])]) ∧
    (runTransforms (Df.mk ["a", "b"] [0] [[.vint 1, .vint 2]])
        [("drop_columns", .vlist [.vstr "a"]), ("column_mapping", .vdict [("b", .vstr "c")])] =
      fixedOrderPipelineSpec (Df.mk ["a", "b"] [0] [[.vint 1, .vint 2]])
        (dictLookup [("drop_columns", .vlist [.vstr "a"]), ("column_mapping", .vdict [("b", .vstr "c")])] "column_mapping")
        (dictLookup [("drop_columns", .vlist [.vstr "a"]), ("column_mapping", .vdict [("b", .vstr "c")])] "column_selection")
        (dictLookup [("drop_columns", .vlist [.vstr "a"]), ("column_mapping", .vdict [("b", .vstr "c")])] "filters")
        (dictLookup [("drop_columns", .vlist [.vstr "a"]), ("column_mapping", .vdict [("b", .vstr "c")])] "computed_fields")
        (dictLookup [("drop_columns", .vlist [.vstr "a"]), ("column_mapping", .vdict [("b", .vstr "c")])] "drop_columns")) :=
  run_transforms_fixed_order_key_order_independent
    (Df.mk ["a", "b"] [0] [[.vint 1, .vint 2]])
    [("drop_columns", .vlist [.vstr "a"]), ("column_mapping", .vdict [("b", .vstr "c")])]
    [("column_mapping", .vdict [("b", .vstr "c")]), ("drop_columns", .vlist [.vstr "a"])]
    (List.Perm.swap ("column_mapping", Val.vdict [("b", Val.vstr "c")]) ("drop_columns", Val.vlist [Val.vstr "a"]) [])
    (by decide)

/-- Counterexample to claim C10 as stated: on a two-column zero-row
dataset, a computed field with an unparsable expression does not succeed —
pandas routes the empty frame through `apply_empty_result`, whose probe
swallows the parse error and returns a `DataFrame` copy, and assigning
that copy to the single column raises `ValueError` — so no empty column is
added. -/
theorem computed_fields_zero_rows_multicolumn_failure_counterexample :
    applyComputedFields (Df.mk ["a", "b"] [] [])
      (.vlist [.vdict [("name", .vstr "x"), ("expression", .vstr "oops")]]) =
      .error (.pyError "ValueError: Cannot set a DataFrame with multiple columns to the single column x") ∧
    applyComputedFields (Df.mk ["a", "b"] [] [])
      (.vlist [.vdict [("name", .vstr "x"), ("expression", .vstr "oops")]]) ≠
      .ok (setColumn (Df.mk ["a", "b"] [] []) "x" []) := by
  refine ⟨rfl, fun h => ?_⟩
  exact Except.noConfusion (show Except.error
    (TErr.pyError "ValueError: Cannot set a DataFrame with multiple columns to the single column x") =
    Except.ok (setColumn (Df.mk ["a", "b"] [] []) "x" []) from h)

/-- Claim C10 as amended: on a zero-row dataset, a computed field whose
expression does not match the `name(args)` grammar never surfaces
`InvalidExpressionError` — the validation loop skips unparsable
expressions and the empty-frame probe evaluation that raises it is
swallowed by pandas — but the step succeeds (assigning the named empty
column) exactly when the frame has one column; any other column count
fails with the `ValueError` that assigning the empty-apply `DataFrame`
result raises. -/
theorem computed_fields_zero_rows_malformed_expression_outcome
    (df : Df) (n e : String)
    (hrows : df.rows = [])
    (hmal : parseExprMatch (pyStrip e) = none) :
    applyComputedFields df (.vlist [.vdict [("name", .vstr n), ("expression", .vstr e)]]) =
      (if df.cols.length = 1 then .ok (setColumn df n [])
       else if df.cols.contains n then
         .error (.pyError "ValueError: Columns must be same length as key")
       else
         .error (.pyError ("ValueError: Cannot set a DataFrame with multiple columns to the single column " ++ n))) := by
  have hitem : applyComputedFieldItem df (.vdict [("name", .vstr n), ("expression", .vstr e)]) =
      (if df.cols.length = 1 then .ok (setColumn df n [])
       else if df.cols.contains n then
         .error (.pyError "ValueError: Columns must be same length as key")
       else
         .error (.pyError ("ValueError: Cannot set a DataFrame with multiple columns to the single column " ++ n))) := by
    simp [applyComputedFieldItem, pyGetItem, dictLookup, pure, Except.pure,
      Bind.bind, Except.bind, hmal, applyExprColumn, hrows, evalExpression, pyStr]
  simp only [applyComputedFields, iterElems, Bind.bind, Except.bind,
    applyComputedFieldsList, hitem]
  by_cases hk : df.cols.length = 1
  · simp [hk]
  · by_cases hc : n ∈ df.cols
    · simp [hk, hc]
    · simp [hk, hc]

/-- Witness for the amended C10 at a one-column empty dataset with the
unparsable expression text `oops`: the step succeeds and assigns the new
empty column. -/
theorem computed_fields_zero_rows_malformed_expression_outcome_witness :
    ((Df.mk ["a"] [] []).rows = [] ∧ parseExprMatch (pyStrip "oops") = none) ∧
    applyComputedFields (Df.mk ["a"] [] [])
      (.vlist [.vdict [("name", .vstr "full"), ("expression", .vstr "oops")]]) =
      (if (Df.mk ["a"] [] []).cols.length = 1 then .ok (setColumn (Df.mk ["a"] [] []) "full" [])
       else if (Df.mk ["a"] [] []).cols.contains "full" then
         .error (.pyError "ValueError: Columns must be same length as key")
       else
         .error (.pyError ("ValueError: Cannot set a DataFrame with multiple columns to the single column " ++ "full"))) :=
  ⟨⟨rfl, rfl⟩,
    computed_fields_zero_rows_malformed_expression_outcome (Df.mk ["a"] [] []) "full" "oops" rfl rfl⟩

/-- Claim C5 evidence: `add` returns the arithmetic sum for numeric column
values (2 + 3 is the number 5), but over two string-literal arguments it
silently evaluates Python `+` on strings and yields the concatenation
"23" instead of failing clearly. -/
theorem add_silently_concatenates_string_arguments :
    evalExpression "add(a, b)" ["a", "b"] [.vint 2, .vint 3] = .ok (.vint 5) ∧
    evalExpression "add(\x272\x27, \x273\x27)" ["a"] [.vint 1] = .ok (.vstr "23") :=
  ⟨by rfl, by rfl⟩

/-- Claim C9: argument splitting keeps a comma inside a single-quoted
literal as literal text, and `concat` joins the stringified resolved
arguments with no separator, so `concat(\x27Hello, \x27, name)` over a row
with `name = "Alice"` is exactly "Hello, Alice". -/
theorem concat_respects_quoted_comma_example :
    parseArgs "\x27Hello, \x27, name" = ["\x27Hello, \x27", "name"] ∧
    evalExpression "concat(\x27Hello, \x27, name)" ["name"] [.vstr "Alice"] =
      .ok (.vstr "Hello, Alice") :=
  ⟨by rfl, by rfl⟩

/-- Python exceptions escaping `validate_config`, carried with the data an
exception object would show. -/
inductive PyErr where
  | attributeError : String → String → PyErr
  | typeErrorUnhashable : String → PyErr
deriving DecidableEq

/-- Membership test of a value in a set of strings, hashing the value
first as Python `in` does (`TypeError` for a list or dict). -/
def pyValInStrSet (v : Val) (s : List String) : Except PyErr Bool :=
  match v with
  | .vlist _ => .error (.typeErrorUnhashable "list")
  | .vdict _ => .error (.typeErrorUnhashable "dict")
  | .vstr x => .ok (s.contains x)
  | _ => .ok false

/-- Python `.strip()` attribute access on an arbitrary value: only strings
have it; anything else raises `AttributeError`. -/
def pyStripAttr : Val → Except PyErr String
  | .vstr s => .ok (pyStrip s)
  | v => .error (.attributeError (pyTypeName v) "strip")

/-- Validation of one `filters` entry in `validate_config`: a non-object
entry is one error; otherwise each of `column`, `operator`, `value` that is
absent is a field-scoped `Required.` error (presence counts a null value as
present, since the source tests `key not in f`), and a present operator
outside the allowed set adds an operator error (hashing it first). -/
def validateFilterItem (i : Nat) (f : Val) : Except PyErr (List (String × String)) :=
  let pfx := "configuration.filters[" ++ toString i ++ "]"
  match f with
  | .vdict kvs =>
      let missingErrs := (["column", "operator", "value"].filter
          (fun k => (dictLookup kvs k).isNone)).map
          (fun k => (pfx ++ "." ++ k, "Required."))
      (match dictLookup kvs "operator" with
       | some opV => do
           let b ← pyValInStrSet opV ["eq", "gt", "lt", "contains"]
           if b then pure missingErrs
           else pure (missingErrs ++ [(pfx ++ ".operator",
             "Unsupported. Allowed: [\x27contains\x27, \x27eq\x27, \x27gt\x27, \x27lt\x27].")])
       | none => pure missingErrs)
  | _ => pure [(pfx, "Must be an object.")]

/-- Enumerated validation of the `filters` list. -/
def validateFiltersList (i : Nat) : List Val → Except PyErr (List (String × String))
  | [] => pure []
  | f :: rest => do
      let e1 ← validateFilterItem i f
      let e2 ← validateFiltersList (i + 1) rest
      pure (e1 ++ e2)

/-- Validation of one `computed_fields` entry: a non-object entry is one
error; a missing `name` and a missing `expression` are `Required.` errors;
a present expression is stripped (`AttributeError` when it is not a
string) and matched against the grammar, rejecting unparsable text and
unsupported function names. -/
def validateComputedItem (i : Nat) (cf : Val) : Except PyErr (List (String × String)) :=
  let pfx := "configuration.computed_fields[" ++ toString i ++ "]"
  match cf with
  | .vdict kvs =>
      let nameErrs :=
        if (dictLookup kvs "name").isNone then [(pfx ++ ".name", "Required.")] else []
      (match dictLookup kvs "expression" with
       | none => pure (nameErrs ++ [(pfx ++ ".expression", "Required.")])
       | some exprV => do
           let stripped ← pyStripAttr exprV
           (match parseExprMatch stripped with
            | none => pure (nameErrs ++ [(pfx ++ ".expression",
                "Cannot parse: " ++ q (pyStr exprV) ++ ".")])
            | some pr =>
                if pr.1 ∉ ["concat", "add"] then
                  pure (nameErrs ++ [(pfx ++ ".expression",
                    "Unsupported function: " ++ q pr.1 ++ ".")])
                else pure nameErrs))
  | _ => pure [(pfx, "Must be an object.")]

/-- Enumerated validation of the `computed_fields` list. -/
def validateComputedList (i : Nat) : List Val → Except PyErr (List (String × String))
  | [] => pure []
  | cf :: rest => do
      let e1 ← validateComputedItem i cf
      let e2 ← validateComputedList (i + 1) rest
      pure (e1 ++ e2)

/-- Validator `validate_config`: a non-object configuration is a single
top-level error; otherwise errors are collected section by section in
source order — required `source_type` and `destination_type` checked
against their allowed sets, `destination_filename` required for a csv
destination, and shape checks for the five step keys.  `config.get(k)`
treats an explicit null like an absent key.  The result is an exception
whenever a section raises (unhashable membership probe or `.strip()` on a
non-string expression), discarding errors collected so far. -/
def validateConfig (config : Val) : Except PyErr (List (String × String)) :=
  match config with
  | .vdict kvs => do
      let srcErrs ← (match dictLookup kvs "source_type" with
        | none => pure [("configuration.source_type", "Required.")]
        | some .vnull => pure [("configuration.source_type", "Required.")]
        | some v => do
            let b ← pyValInStrSet v ["csv", "excel"]
            pure (if b then [] else [("configuration.source_type",
              "Unsupported. Allowed: [\x27csv\x27, \x27excel\x27].")]))
      let destErrs ← (match dictLookup kvs "destination_type" with
        | none => pure [("configuration.destination_type", "Required.")]
        | some .vnull => pure [("configuration.destination_type", "Required.")]
        | some v => do
            let b ← pyValInStrSet v ["database", "csv"]
            pure (if b then [] else [("configuration.destination_type",
              "Unsupported. Allowed: [\x27csv\x27, \x27database\x27].")]))
      let destFileErrs :=
        (match dictLookup kvs "destination_type" with
         | some (.vstr s) =>
             if s = "csv" && !pyTruthy ((dictLookup kvs "destination_filename").getD .vnull) then
               [("configuration.destination_filename",
                 "Required when destination_type is \x27csv\x27.")]
             else []
         | _ => [])
      let mappingErrs :=
        (match dictLookup kvs "column_mapping" with
         | none => []
         | some .vnull => []
         | some (.vdict _) => []
         | some _ => [("configuration.column_mapping", "Must be an object.")])
      let selErrs :=
        (match dictLookup kvs "column_selection" with
         | none => []
         | some .vnull => []
         | some (.vlist xs) =>
             if xs.isEmpty then [("configuration.column_selection", "Must be a non-empty list.")]
             else []
         | some _ => [("configuration.column_selection", "Must be a non-empty list.")])
      let filterErrs ← (match dictLookup kvs "filters" with
        | none => pure []
        | some .vnull => pure []
        | some (.vlist xs) => validateFiltersList 0 xs
        | some _ => pure [("configuration.filters", "Must be a list.")])
      let compErrs ← (match dictLookup kvs "computed_fields" with
        | none => pure []
        | some .vnull => pure []
        | some (.vlist xs) => validateComputedList 0 xs
        | some _ => pure [("configuration.computed_fields", "Must be a list.")])
      let dropErrs :=
        (match dictLookup kvs "drop_columns" with
         | none => []
         | some .vnull => []
         | some (.vlist _) => []
         | some _ => [("configuration.drop_columns", "Must be a list.")])
      pure (srcErrs ++ destErrs ++ destFileErrs ++ mappingErrs ++ selErrs ++
        filterErrs ++ compErrs ++ dropErrs)
  | _ => pure [("configuration", "Must be a JSON object.")]

/-- Claim C2 evidence: the configuration the repository's own API test
creates (only a `filters` step, exactly as spec section 6 allows) is
rejected by `validate_config` with two `Required.` errors, so the step
keys are not all-optional as claimed. -/
theorem validate_config_requires_source_and_destination :
    validateConfig (.vdict [("filters", .vlist
        [.vdict [("column", .vstr "value"), ("operator", .vstr "gt"), ("value", .vint 100)]])]) =
      .ok [("configuration.source_type", "Required."),
        ("configuration.destination_type", "Required.")] ∧
    ([("configuration.source_type", "Required."),
      ("configuration.destination_type", "Required.")] : List (String × String)) ≠ [] :=
  ⟨by rfl, by decide⟩

/-- Claim C4 evidence: on a configuration whose computed-field expression
is the integer 42, `validate_config` raises `AttributeError` from
`cf["expression"].strip()` instead of returning an error list. -/
theorem validate_config_raises_on_nonstring_expression :
    validateConfig (.vdict [("source_type", .vstr "csv"), ("destination_type", .vstr "database"),
        ("computed_fields", .vlist [.vdict [("name", .vstr "x"), ("expression", .vint 42)]])]) =
      .error (.attributeError "int" "strip") := by rfl

/-- Pre-run rejection `PipelineExecutionError` with its code and message. -/
structure PipelineExecErr where
  code : String
  message : String
deriving DecidableEq

/-- Terminal and initial states of a `PipelineRun` record. -/
inductive RunStatus where
  | pending : RunStatus
  | completed : RunStatus
  | failed : RunStatus
deriving DecidableEq

/-- Output attached to a run: none, a stored CSV file name, or the
`OutputData` row records written for the database destination. -/
inductive OutputRef where
  | noOutput : OutputRef
  | fileOutput : String → OutputRef
  | dbRows : List (List (String × Val)) → OutputRef

/-- Persisted run record (creation time and file bytes are not modelled;
`output` carries what `_write_csv`/`_write_database` attach). -/
structure RunRec where
  pipelinePk : Nat
  runPk : Nat
  status : RunStatus
  errorMessage : Option String
  output : OutputRef

/-- Character-level split on a separator. -/
def splitChars (sep : Char) : List Char → List Char → List (List Char)
  | [], cur => [cur.reverse]
  | c :: cs, cur =>
      if c = sep then cur.reverse :: splitChars sep cs []
      else splitChars sep cs (c :: cur)

/-- Final path component, as `pathlib.PurePath.name` (trailing and
repeated separators dropped). -/
def pathName (s : String) : String :=
  String.mk ((((splitChars '/' s.toList []).filter (fun p => p ≠ [])).getLast?).getD [])

/-- Extension of the final path component, as `pathlib.PurePath.suffix`:
the text from the last dot, provided that dot is neither the first nor the
last character of the name. -/
def pySuffix (name : String) : String :=
  let base := (pathName name).toList
  match base.reverse.findIdx? (fun c => c = '.') with
  | none => ""
  | some j =>
      let i := base.length - 1 - j
      if 0 < i && i < base.length - 1 then String.mk (base.drop i) else ""

/-- Python `str.lower()` on the character list (the ASCII case mapping;
extensions in the repository and claims are ASCII). -/
def pyLower (s : String) : String :=
  String.mk (s.toList.map Char.toLower)

/-- Extensions accepted by `run_pipeline` (`ALLOWED_EXTENSIONS`). -/
def allowedExtensions : List String := [".csv", ".xlsx", ".xls"]

/-- Message of the unsupported-extension rejection, with
`sorted(ALLOWED_EXTENSIONS)` interpolated. -/
def unsupportedExtMessage (ext : String) : String :=
  "File type " ++ q ext ++ " is not supported. Allowed: [\x27.csv\x27, \x27.xls\x27, \x27.xlsx\x27]"

/-- Orchestrator `run_pipeline` over a store of existing run records: an
unsupported lowercased extension raises `PipelineExecutionError` before
any run is created; otherwise a pending run is created, the input is
decoded (`fileData` stands for the pandas reader, an external
collaborator that may fail), transforms run, output is written for the
`csv` and `database` destinations (any other destination writes nothing),
and the run ends `completed`, or `failed` with the failure's message —
every error inside the try block is caught alike. -/
def runPipeline (pipelinePk : Nat) (config : List (String × Val)) (fileName : String)
    (fileData : Except String Df) (destination : String) (runs : List RunRec) :
    Except PipelineExecErr RunRec × List RunRec :=
  let ext := pyLower (pySuffix fileName)
  if ext ∉ allowedExtensions then
    (.error ⟨"UNSUPPORTED_FILE_TYPE", unsupportedExtMessage ext⟩, runs)
  else
    let runPk := runs.length + 1
    let outcome : Except String OutputRef :=
      match fileData with
      | .error decodeMsg => .error decodeMsg
      | .ok df =>
          match runTransforms df config with
          | .error e => .error (errMsg e)
          | .ok df2 =>
              if destination = "csv" then
                .ok (.fileOutput ("pipeline_" ++ toString pipelinePk ++ "_run_" ++
                  toString runPk ++ ".csv"))
              else if destination = "database" then
                .ok (.dbRows (df2.rows.map (fun r => df2.cols.zip r)))
              else .ok .noOutput
    match outcome with
    | .ok outp => letI run : RunRec := ⟨pipelinePk, runPk, .completed, none, outp⟩
        (.ok run, runs ++ [run])
    | .error m => letI run : RunRec := ⟨pipelinePk, runPk, .failed, some m, .noOutput⟩
        (.ok run, runs ++ [run])

/-- Responses of the run endpoint in `views.py`. -/
inductive ApiResp where
  | validationError : ApiResp
  | executionError : String → String → ApiResp
  | success : RunRec → ApiResp

/-- Destination check of `PipelineRunTriggerSerializer`: a `ChoiceField`
with choices csv and database, defaulting to csv when absent. -/
def triggerDestValid (dest : Option String) : Bool :=
  match dest with
  | none => true
  | some d => decide (d ∈ (["csv", "database"] : List String))

/-- Run endpoint `PipelineViewSet.run`: the trigger serializer requires
the file and a recognized destination, answering a 400 validation error
without touching any run record when it fails; otherwise `run_pipeline`
executes, its pre-run rejection becomes a 400 with its code, and its run
becomes the 200 payload. -/
def runEndpoint (pipelinePk : Nat) (config : List (String × Val)) (filePresent : Bool)
    (fileName : String) (fileData : Except String Df) (dest : Option String)
    (runs : List RunRec) : ApiResp × List RunRec :=
  if !(filePresent && triggerDestValid dest) then (.validationError, runs)
  else
    match runPipeline pipelinePk config fileName fileData (dest.getD "csv") runs with
    | (.error e, runs2) => (.executionError e.code e.message, runs2)
    | (.ok run, runs2) => (.success run, runs2)

/-- Claim C1: for every pipeline, uploaded file and run store, a
destination outside the recognized set is answered by the serializer's
validation failure and the run store is unchanged — no Run record of any
status comes into existence. -/
theorem run_endpoint_rejects_unknown_destination
    (ppk : Nat) (config : List (String × Val)) (fileName : String)
    (fileData : Except String Df) (d : String) (runs : List RunRec)
    (hd : d ∉ (["csv", "database"] : List String)) :
    runEndpoint ppk config true fileName fileData (some d) runs = (.validationError, runs) := by
  have hbd : triggerDestValid (some d) = false := by
    simp only [triggerDestValid, decide_eq_false hd]
  simp [runEndpoint, hbd]

/-- Witness for C1 at the destination "s3" that the repository's own test
sends: the endpoint answers a validation error and creates no run. -/
theorem run_endpoint_rejects_unknown_destination_witness :
    ("s3" ∉ (["csv", "database"] : List String)) ∧
    runEndpoint 1 [] true "input.csv" (.ok (Df.mk ["a"] [0] [[.vint 1]])) (some "s3") [] =
      (.validationError, []) :=
  ⟨by decide, run_endpoint_rejects_unknown_destination 1 [] "input.csv"
    (.ok (Df.mk ["a"] [0] [[.vint 1]])) "s3" [] (by decide)⟩

/-- Claim C8: for every pipeline, configuration, destination and run
store, a file name whose lowercased extension is outside the supported set
makes `run_pipeline` raise the distinct `UNSUPPORTED_FILE_TYPE`
rejection with the run store unchanged, so no Run entity of any status
exists for the attempt. -/
theorem run_pipeline_unsupported_extension_rejected
    (ppk : Nat) (config : List (String × Val)) (fileName : String)
    (fileData : Except String Df) (destination : String) (runs : List RunRec)
    (hext : pyLower (pySuffix fileName) ∉ allowedExtensions) :
    runPipeline ppk config fileName fileData destination runs =
      (.error ⟨"UNSUPPORTED_FILE_TYPE", unsupportedExtMessage (pyLower (pySuffix fileName))⟩, runs) := by
  unfold runPipeline
  rw [if_pos hext]

/-- Witness for C8 at the test's file `data.txt`: the `.txt` extension is
rejected with the distinct code and the run store stays empty. -/
theorem run_pipeline_unsupported_extension_rejected_witness :
    (pyLower (pySuffix "data.txt") ∉ allowedExtensions) ∧
    runPipeline 1 [] "data.txt" (.ok (Df.mk ["a"] [0] [[.vint 1]])) "csv" [] =
      (.error ⟨"UNSUPPORTED_FILE_TYPE", unsupportedExtMessage (pyLower (pySuffix "data.txt"))⟩, []) :=
  ⟨by decide, run_pipeline_unsupported_extension_rejected 1 [] "data.txt"
    (.ok (Df.mk ["a"] [0] [[.vint 1]])) "csv" [] (by decide)⟩
